import Mathlib

/-
Verification of the orchestration core of `src/ocean/Assets.ts`
(Electronic-Signatures-Industries/ocean.js): the Publish, Order and Consume
workflows and the service-document model they manipulate.

The embedding is shallow: every method is translated into a pure Lean
function.  Collaborators (ledger, provider, metadata index, signer) are
passed in explicitly as environment records; an operation that can throw in
JavaScript returns `Except`, an operation that can return `null`/`undefined`
returns `Option`.  Progress events and collaborator calls are returned as
explicit traces so that ordering and call-count properties can be stated.
-/

namespace Ocean

/-! ## Data model -/

/-- One entry of `metadata.main.files` (a file reference): the publish flow
rewrites each file to carry its position and a stripped URL. -/
structure FileSpec where
  url : Option String := none
  index : Nat := 0
deriving DecidableEq, Repr

/-- The `attributes.main.privacy` block of a compute service. -/
structure Privacy where
  allowRawAlgorithm : Bool := false
  allowNetworkAccess : Bool := false
  trustedAlgorithms : List String := []
deriving DecidableEq, Repr

/-- The `attributes.main` block of a service descriptor; only the fields the
verified operations read or write are carried. -/
structure MainAttributes where
  name : String := ""
  cost : String := "0"
  timeout : Nat := 0
  files : List FileSpec := []
  privacy : Privacy := {}
deriving DecidableEq, Repr

/-- The `curation` block defaulted by `Assets.create` (rating 0, numVotes 0). -/
structure Curation where
  rating : Nat := 0
  numVotes : Nat := 0
deriving DecidableEq, Repr

/-- The `attributes` map of a service descriptor. -/
structure Attributes where
  curation : Option Curation := none
  main : MainAttributes := {}
  additionalInformation : Option String := none
  encryptedFiles : Option String := none
deriving DecidableEq, Repr

/-- The caller-supplied DDO metadata (`Metadata` interface). -/
structure Metadata where
  main : MainAttributes := {}
  additionalInformation : Option String := none
deriving DecidableEq, Repr

/-- A service descriptor before the builder has assigned its dense index:
the shape of the entries of the candidate sequence
`[metadataServiceLiteral, ...callerServices]` that the dedup pipeline of
`Assets.create` consumes (the final `.map` overwrites any `index`). -/
structure ServiceNoIndex where
  type : String
  serviceEndpoint : Option String := none
  attributes : Attributes := {}
deriving DecidableEq, Repr

/-- A full service descriptor (`ServiceCommon` in the source): `index` is an
`Int` because `Assets.order` uses `-1` as the "resolve by type" sentinel. -/
structure ServiceCommon where
  type : String
  index : Int
  serviceEndpoint : Option String := none
  attributes : Attributes := {}
deriving DecidableEq, Repr

/-- One `authentication` entry of a DDO. -/
structure Authentication where
  type : String
  publicKey : String
deriving DecidableEq, Repr

/-- One `publicKey` entry of a DDO. -/
structure PublicKeyEntry where
  id : String
  type : String
  owner : String
deriving DecidableEq, Repr

/-- The proof record attached to a DDO (`creator`, `signatureValue`). -/
structure ProofRecord where
  creator : String
  signatureValue : String
deriving DecidableEq, Repr

/-- The asset document (`DDO`). -/
structure DDO where
  id : String
  dataToken : String
  authentication : List Authentication := []
  publicKey : List PublicKeyEntry := []
  service : List ServiceCommon := []
  proof : Option ProofRecord := none
deriving DecidableEq, Repr

/-! ## Service Document Builder (Assets.create, lines 138-173) -/

/-- Embeds the metadata-service literal of `Assets.create` (lines 139-160):
curation defaulted, caller metadata spread over it, `encryptedFiles`
attached, and `main.files` rewritten with positional `index` and the `url`
stripped (`url: undefined`). -/
def metadataServiceOf (metadata : Metadata) (encryptedFiles : String) : ServiceNoIndex :=
  { type := "metadata"
    serviceEndpoint := none
    attributes :=
      { curation := some { rating := 0, numVotes := 0 }
        main := { metadata.main with
                  files := metadata.main.files.enum.map fun p =>
                    { p.2 with index := p.1, url := none } }
        additionalInformation := metadata.additionalInformation
        encryptedFiles := some encryptedFiles } }

/-- Embeds the JS callback
`list.filter((x, i, list) => list.findIndex(y => y.type === x.type) === i)`:
the reference array `list` is fixed while the traversal carries the running
position `i`. -/
def firstOccAux (list : List ServiceNoIndex) : List ServiceNoIndex → Nat → List ServiceNoIndex
  | [], _ => []
  | x :: rest, i =>
    if list.findIdx (fun y => y.type == x.type) == i then
      x :: firstOccAux list rest (i + 1)
    else
      firstOccAux list rest (i + 1)

/-- The whole JS index-aware filter applied to a list (keeps each element
that is the first occurrence of its `type`). -/
def firstOccurrenceFilter (list : List ServiceNoIndex) : List ServiceNoIndex :=
  firstOccAux list list 0

/-- Embeds the dedup-and-index pipeline of `Assets.create` (lines 162-173):
`.reverse().filter(firstOccurrence).reverse()` followed by
`.map(s => (...s, index: indexCount++))`. -/
def buildServiceList (candidates : List ServiceNoIndex) : List ServiceCommon :=
  ((firstOccurrenceFilter candidates.reverse).reverse).enum.map fun p =>
    { type := p.2.type
      index := (p.1 : Int)
      serviceEndpoint := p.2.serviceEndpoint
      attributes := p.2.attributes }

/-- Specification-side reading of the dedup: an entry survives exactly when
no later entry shares its `type`, i.e. for each type the last occurrence
survives and the survivors keep the relative order of the last occurrences. -/
def dedupKeepLast : List ServiceNoIndex → List ServiceNoIndex
  | [] => []
  | s :: rest =>
    if rest.any (fun t => t.type == s.type) then dedupKeepLast rest
    else s :: dedupKeepLast rest

/-- Specification-side index assignment: dense indices `0..n-1` in order. -/
def withDenseIndices (l : List ServiceNoIndex) : List ServiceCommon :=
  l.enum.map fun p =>
    { type := p.2.type
      index := (p.1 : Int)
      serviceEndpoint := p.2.serviceEndpoint
      attributes := p.2.attributes }

/-! ### Concrete builder inputs for C1 -/

/-- Candidate metadata entry at position 0 (payload distinguished by name). -/
def exMeta0 : ServiceNoIndex :=
  { type := "metadata", attributes := { main := { name := "payload0" } } }

/-- Candidate access entry at position 1. -/
def exAccess1 : ServiceNoIndex :=
  { type := "access", attributes := { main := { name := "payloadA" } } }

/-- Candidate metadata entry at position 2 (distinct payload). -/
def exMeta2 : ServiceNoIndex :=
  { type := "metadata", attributes := { main := { name := "payload2" } } }

/-! ## Address and unit helpers -/

/-- One character of the hexadecimal alphabet (either case). -/
def isHexDigit (c : Char) : Bool :=
  c.isDigit || ('a' ≤ c && c ≤ 'f') || ('A' ≤ c && c ≤ 'F')

/-- Models `isAddress` from the external `web3-utils` dependency: the basic
syntactic check, an optional `0x` followed by exactly 40 hexadecimal digits
(the additional mixed-case checksum sub-check is not modelled; the witnesses
below only use single-case addresses, on which it never fires). -/
def isAddress (s : String) : Bool :=
  match s.toList with
  | '0' :: 'x' :: rest => rest.length == 40 && rest.all isHexDigit
  | cs => cs.length == 40 && cs.all isHexDigit

/-- `Assets.create` applies `isAddress` to its optional `dtAddress` argument
unconditionally; in JavaScript an absent value is stringified to
`"undefined"`, which fails the pattern, so `isAddress(undefined) = false`. -/
def isAddressOpt : Option String → Bool
  | none => false
  | some a => isAddress a

/-- Modelled from the spec: the Identifier Deriver (`DID.generate`, not under
`src/`) is a pure, deterministic function from the token contract address to
the DID string. -/
def didOf (address : String) : String :=
  "did:op:" ++ address.drop 2

/-- Modelled from the spec: `didZeroX` (a utility, not under `src/`)
normalizes a DID to its `0x`-prefixed bare identifier. -/
def didZeroX (did : String) : String :=
  "0x" ++ did.replace "did:op:" ""

/-- `web3.utils.fromWei`: convert a base-unit (wei) amount into token units;
`BigNumber` arithmetic is exact decimal arithmetic, embedded as `Rat`. -/
def fromWei (n : Nat) : Rat :=
  (n : Rat) / ((10 : Rat) ^ 18)

/-- Conversion back to base units (used by the modelled ledger when it
records a payment). -/
def toWei (r : Rat) : Rat :=
  r * ((10 : Rat) ^ 18)

/-! ## Publish Workflow (Assets.create, lines 61-193) -/

/-- The 8 named progress steps of the Publish Workflow, in declaration
order. -/
inductive CreateProgressStep
  | CreatingDataToken
  | DataTokenCreated
  | EncryptingFiles
  | FilesEncrypted
  | GeneratingProof
  | ProofGenerated
  | StoringDdo
  | DdoStored
deriving DecidableEq, Repr

/-- Collaborator calls issued by the Publish Workflow, in order:
`datatokens.create` (the only ledger write), `provider.encrypt`,
`ddo.addProof` (signing collaborator) and `OnChainMetadataStore.publish`. -/
inductive PCall
  | createToken
  | encrypt
  | addProof
  | publishStore
deriving DecidableEq, Repr

/-- Outcomes of the collaborators the Publish Workflow consumes:
the address minted by `datatokens.create`, the blob from
`provider.encrypt`, the signature from the signing collaborator, and the
transaction returned by `OnChainMetadataStore.publish` (`none` models a
falsy `storeTx`, i.e. the index-publish reporting failure). -/
structure PublishEnv where
  createTokenAddr : String
  encryptedFiles : String
  proofSignature : String
  publishTx : Option String

/-- Modelled from the spec: `DDO.addProof` (not under `src/`) attaches the
proof record with `creator` set to the publisher identity and the signature
obtained from the signing collaborator. -/
def addProof (ddo : DDO) (publisher : String) (signature : String) : DDO :=
  { ddo with proof := some { creator := publisher, signatureValue := signature } }

/-- Embeds the tail of the `SubscribablePromise` body of `Assets.create`
(lines 108-192), from DID derivation on, with a known token address:
encrypt, assemble the DDO (Service Document Builder on the candidate list
`[metadataService, ...services]`), attach the proof, publish to the index.
`StoringDdo` and `DdoStored` are both emitted regardless of the publish
outcome; the terminal value is the DDO when `storeTx` is truthy, else
`null`. -/
def createRest (env : PublishEnv) (metadata : Metadata) (publisher : String)
    (services : List ServiceCommon) (dtAddress : String) :
    List CreateProgressStep × List PCall × Option DDO :=
  let did := didOf dtAddress
  let candidates := metadataServiceOf metadata env.encryptedFiles ::
    services.map fun s =>
      { type := s.type, serviceEndpoint := s.serviceEndpoint,
        attributes := s.attributes : ServiceNoIndex }
  let ddo : DDO :=
    { id := did
      dataToken := dtAddress
      authentication := [{ type := "RsaSignatureAuthentication2018", publicKey := did }]
      publicKey := [{ id := did, type := "EthereumECDSAKey", owner := publisher }]
      service := buildServiceList candidates }
  let signed := addProof ddo publisher env.proofSignature
  ([CreateProgressStep.EncryptingFiles, CreateProgressStep.FilesEncrypted,
    CreateProgressStep.GeneratingProof, CreateProgressStep.ProofGenerated,
    CreateProgressStep.StoringDdo, CreateProgressStep.DdoStored],
   [PCall.encrypt, PCall.addProof, PCall.publishStore],
   match env.publishTx with
   | some _ => some signed
   | none => none)

/-- Embeds the `SubscribablePromise` body of `Assets.create` (lines 78-192):
with no token address, request token creation from the ledger (aborting with
`null` after `CreatingDataToken` if the minted address is invalid);
otherwise use the supplied address directly. -/
def createBody (env : PublishEnv) (metadata : Metadata) (publisher : String)
    (services : List ServiceCommon) (dtAddress : Option String) :
    List CreateProgressStep × List PCall × Option DDO :=
  match dtAddress with
  | none =>
    let addr := env.createTokenAddr
    if !(isAddress addr) then
      ([CreateProgressStep.CreatingDataToken], [PCall.createToken], none)
    else
      let rest := createRest env metadata publisher services addr
      (CreateProgressStep.CreatingDataToken :: CreateProgressStep.DataTokenCreated :: rest.1,
       PCall.createToken :: rest.2.1,
       rest.2.2)
  | some addr => createRest env metadata publisher services addr

/-- Embeds `Assets.create` (lines 61-193) in full, including the entry guard
at line 70: `if (!isAddress(dtAddress)) return null` runs before the body is
ever constructed, and it runs on the raw optional argument.  The outer
`none` is the synchronous `null` return (no progress event, no collaborator
call); `some` wraps the body's event trace, call trace and terminal value. -/
def create (env : PublishEnv) (metadata : Metadata) (publisher : String)
    (services : List ServiceCommon) (dtAddress : Option String) :
    Option (List CreateProgressStep × List PCall × Option DDO) :=
  if !(isAddressOpt dtAddress) then none
  else some (createBody env metadata publisher services dtAddress)

/-- A publish environment in which every collaborator call succeeds (used by
the C2 theorem). -/
def goodPublishEnv : PublishEnv :=
  { createTokenAddr := "0xaaaaaaaaaaaaaaaaaaaaaaaaaaaaaaaaaaaaaaaa"
    encryptedFiles := "encrypted-blob"
    proofSignature := "0xsig"
    publishTx := some "0xstoretx" }

/-- A publish environment in which token creation succeeds but the final
index publish reports failure (used by the C7 witness). -/
def failingStorePublishEnv : PublishEnv :=
  { createTokenAddr := "0xaaaaaaaaaaaaaaaaaaaaaaaaaaaaaaaaaaaaaaaa"
    encryptedFiles := "encrypted-blob"
    proofSignature := "0xsig"
    publishTx := none }

/-- The 8 progress steps in their fixed order. -/
def allCreateSteps : List CreateProgressStep :=
  [CreateProgressStep.CreatingDataToken, CreateProgressStep.DataTokenCreated,
   CreateProgressStep.EncryptingFiles, CreateProgressStep.FilesEncrypted,
   CreateProgressStep.GeneratingProof, CreateProgressStep.ProofGenerated,
   CreateProgressStep.StoringDdo, CreateProgressStep.DdoStored]

/-! ## Service lookup (Assets.getServiceByType / getServiceByIndex) -/

/-- Left-biased choice on options (JS `a !== undefined ? a : b` shape),
used to characterize the lookup loops. -/
def optOr {α} : Option α → Option α → Option α
  | some a, _ => some a
  | none, b => b

/-- Embeds `Assets.getServiceByType` (lines 358-370): the `forEach` loop
starts from an undefined `service` and overwrites it on every match, so the
last matching descriptor wins; no match leaves it undefined. -/
def getServiceByType (services : List ServiceCommon) (serviceType : String) :
    Option ServiceCommon :=
  services.foldl (fun service serv => if serv.type == serviceType then some serv else service)
    none

/-- Embeds `Assets.getServiceByIndex` (lines 372-384): same overwrite loop,
matching on the `index` field. -/
def getServiceByIndex (services : List ServiceCommon) (serviceIndex : Int) :
    Option ServiceCommon :=
  services.foldl (fun service serv => if serv.index == serviceIndex then some serv else service)
    none

/-! ## Order Workflow (Assets.order, lines 453-514) -/

/-- The quote returned by the provider's initialize operation:
`dataToken` address and `numTokens` price in base units (wei). -/
structure ProviderData where
  dataToken : String
  numTokens : Nat
deriving DecidableEq, Repr

/-- A ledger transaction receipt (`txid.transactionHash`). -/
structure TxReceipt where
  transactionHash : String
deriving DecidableEq, Repr

/-- Modelled from the spec: one committed order recorded by the ledger
collaborator (`OrderReceipt`: transaction identifier, keyed by token,
amount, DID, service index, consumer, with its commit timestamp). -/
structure OrderRecord where
  txHash : String
  dataToken : String
  amount : Rat
  did : String
  serviceIndex : Int
  consumer : String
  timestamp : Nat
deriving DecidableEq, Repr

/-- Modelled from the spec: the ledger collaborator (`DataTokens`, not under
`src/`): current time, committed orders, token balances (in token units, as
`datatokens.balance` returns), a transaction counter for fresh hashes, and a
flag that makes the next `startOrder` throw (`LedgerTransactionFailed`). -/
structure Ledger where
  now : Nat
  orders : List OrderRecord
  balances : String → String → Rat
  nextTxId : Nat
  startOrderFails : Bool

/-- Modelled from the spec: `getPreviousValidOrders` returns the transaction
identifier of a recorded order matching (token, amount, did, serviceIndex,
consumer) that is still within its validity window
(`now < timestamp + timeout`), or `null`. -/
def Ledger.getPreviousValidOrders (L : Ledger) (dataToken : String) (amount : Nat)
    (did : String) (serviceIndex : Int) (timeout : Nat) (consumer : String) :
    Option String :=
  (L.orders.find? fun o =>
      o.dataToken == dataToken && decide (o.amount = (amount : Rat)) && o.did == did &&
      o.serviceIndex == serviceIndex && o.consumer == consumer &&
      decide (L.now < o.timestamp + timeout)).map fun o => o.txHash

/-- Modelled from the spec: `startOrder` commits the payment, records the
order (amount converted back to base units) and returns the receipt; `none`
models the ledger collaborator throwing. -/
def Ledger.startOrder (L : Ledger) (dataToken : String) (amount : Rat) (did : String)
    (serviceIndex : Int) (mpAddress : Option String) (consumer : String) :
    Option (Ledger × TxReceipt) :=
  if L.startOrderFails then none
  else
    let tx : TxReceipt := { transactionHash := "0xorder" ++ toString L.nextTxId }
    some ({ L with
            orders := { txHash := tx.transactionHash
                        dataToken := dataToken
                        amount := toWei amount
                        did := did
                        serviceIndex := serviceIndex
                        consumer := consumer
                        timestamp := L.now } :: L.orders
            nextTxId := L.nextTxId + 1 },
      tx)

/-- Collaborator calls issued by the Order Workflow, in program order. -/
inductive OCall
  | initProvider
  | getPreviousValidOrders
  | balanceOf
  | startOrder
deriving DecidableEq, Repr

/-- A JavaScript runtime failure escaping a workflow: `typeError` models
reading a property of `undefined`; `missingEndpoint` models the explicit
`throw new Error(...)` of the Consume Workflow. -/
inductive JsError
  | typeError
  | missingEndpoint
deriving DecidableEq, Repr

/-- Non-ledger collaborator outcomes consumed by the Order Workflow: the
resolved document's service list (`resolve(did).service`) and the provider
initialize/quote result (`none` models the `null` quote). -/
structure OrderEnv where
  services : List ServiceCommon
  providerInit : Option ProviderData

/-- Embeds the `try` block of `Assets.order` (lines 468-513).  Every throw
inside this block is caught by the `catch` at line 510 and surfaces as the
`null` result (`Except.ok none`), with the calls made so far kept in the
trace: a missing service at line 476 (`service.attributes` on `undefined`)
and a ledger throw in `startOrder` are both swallowed.  A truthy receipt
returns its `transactionHash`. -/
def orderTry (env : OrderEnv) (L : Ledger) (did : String) (serviceType : String)
    (consumerAddress : String) (serviceIndex : Int) (mpAddress : Option String) :
    Except JsError (Option String) × Ledger × List OCall :=
  match env.providerInit with
  | none => (Except.ok none, L, [OCall.initProvider])
  | some providerData =>
    match getServiceByIndex env.services serviceIndex with
    | none => (Except.ok none, L, [OCall.initProvider])
    | some service =>
      match L.getPreviousValidOrders providerData.dataToken providerData.numTokens
          (didZeroX did) serviceIndex service.attributes.main.timeout consumerAddress with
      | some previousOrder =>
        (Except.ok (some previousOrder), L, [OCall.initProvider, OCall.getPreviousValidOrders])
      | none =>
        let balance := L.balances providerData.dataToken consumerAddress
        let totalCost := fromWei providerData.numTokens
        if balance ≤ totalCost then
          (Except.ok none, L, [OCall.initProvider, OCall.getPreviousValidOrders, OCall.balanceOf])
        else
          match L.startOrder providerData.dataToken (fromWei providerData.numTokens)
              (didZeroX did) serviceIndex mpAddress consumerAddress with
          | none =>
            (Except.ok none, L,
              [OCall.initProvider, OCall.getPreviousValidOrders, OCall.balanceOf,
               OCall.startOrder])
          | some (L', txid) =>
            (Except.ok (some txid.transactionHash), L',
              [OCall.initProvider, OCall.getPreviousValidOrders, OCall.balanceOf,
               OCall.startOrder])

/-- Embeds `Assets.order` (lines 453-514).  The service resolution of lines
460-466 runs OUTSIDE the `try`: when the lookup misses, reading `.index`
(resp. `.type`) of `undefined` raises a `TypeError` that propagates to the
caller (`Except.error`); nothing else escapes, because the whole remainder
sits in the `try` of `orderTry`. -/
def order (env : OrderEnv) (L : Ledger) (did : String) (serviceType : String)
    (consumerAddress : String) (serviceIndex : Int) (mpAddress : Option String) :
    Except JsError (Option String) × Ledger × List OCall :=
  if serviceIndex == -1 then
    match getServiceByType env.services serviceType with
    | none => (Except.error JsError.typeError, L, [])
    | some service => orderTry env L did serviceType consumerAddress service.index mpAddress
  else
    match getServiceByIndex env.services serviceIndex with
    | none => (Except.error JsError.typeError, L, [])
    | some service => orderTry env L did service.type consumerAddress serviceIndex mpAddress

/-! ## Consume Workflow, full-resolution variant (Assets.download, 517-553) -/

/-- The provider download call with the exact arguments the source passes:
`(did, txId, tokenAddress, serviceType, serviceIndex.toString(),
destination, consumerAccount, files)`. -/
inductive DCall
  | providerDownload (did : String) (txId : String) (tokenAddress : String)
      (serviceType : String) (serviceIndex : String) (destination : Option String)
      (consumerAccount : String) (files : List FileSpec)
deriving DecidableEq, Repr

/-- Modelled from the spec: `DDO.findServiceByType` (not under `src/`)
locates the service of the given type in the document. -/
def findServiceByType (ddo : DDO) (serviceType : String) : Option ServiceCommon :=
  ddo.service.find? fun s => s.type == serviceType

/-- Modelled from the spec: `DDO.shortId` (not under `src/`) strips the DID
scheme prefix from the identifier. -/
def shortId (ddo : DDO) : String :=
  ddo.id.replace "did:op:" ""

/-- Embeds `Assets.download` (lines 517-553): resolve the document,
destructure the `metadata` and `access` services (a `TypeError` escapes if
either is absent), fail hard with the missing-endpoint error when the access
service has no `serviceEndpoint` — before any provider call — otherwise
derive the destination path and delegate to `provider.download`, returning
`true`. -/
def download (ddo : DDO) (did : String) (txId : String) (tokenAddress : String)
    (consumerAccount : String) (destination : Option String) :
    Except JsError (Bool × List DCall) :=
  match findServiceByType ddo "metadata" with
  | none => Except.error JsError.typeError
  | some mdService =>
    match findServiceByType ddo "access" with
    | none => Except.error JsError.typeError
    | some service =>
      let files := mdService.attributes.main.files
      match service.serviceEndpoint with
      | none => Except.error JsError.missingEndpoint
      | some _ =>
        let dest := destination.map fun d =>
          d ++ "/datafile." ++ shortId ddo ++ "." ++ toString service.index ++ "/"
        Except.ok (true,
          [DCall.providerDownload did txId tokenAddress service.type
            (toString service.index) dest consumerAccount files])

/-! ## Creator lookup (Assets.creator, lines 315-328) -/

/-- JavaScript `toLowerCase`, embedded structurally over the character
list so that it evaluates in the kernel. -/
def toLowerStr (s : String) : String :=
  ⟨s.data.map Char.toLower⟩

/-- Embeds `Assets.creator` (lines 315-328): resolve the document, recover
the signer of the proof via the signature collaborator, log a warning when
the lowercased signer differs from the lowercased `creator` — and return the
proof's `creator` field either way.  The result pairs the returned creator
with the warning flag; destructuring `ddo.proof` when it is absent raises. -/
def creatorOp (verifyText : String → String → String) (getChecksum : DDO → String)
    (ddo : DDO) : Except JsError (String × Bool) :=
  match ddo.proof with
  | none => Except.error JsError.typeError
  | some pf =>
    let signer := verifyText (getChecksum ddo) pf.signatureValue
    Except.ok (pf.creator, toLowerStr signer != toLowerStr pf.creator)

/-! ## Compute-privacy edit (Assets.updateComputePrivacy, lines 287-308) -/

/-- The metadata-index write issued by the edit operations
(`OnChainMetadataStore.update(did, document, ownerId)`). -/
inductive MCall
  | updateStore (did : String) (ddo : DDO) (owner : String)
deriving DecidableEq, Repr

/-- Collaborator outcomes for the edit operations: the metadata index's
retrieve result and the update transaction result (`none` = falsy). -/
structure EditEnv where
  store : String → Option DDO
  updateTx : Option String

/-- Embeds `Assets.updateComputePrivacy` (lines 287-308): retrieve the
document; if the service at the positional `serviceIndex` is not of type
`compute`, return `null` immediately (no index update call); otherwise
overwrite the three privacy fields, call the index update, and return the
updated document when the transaction is truthy, `null` otherwise. -/
def updateComputePrivacy (env : EditEnv) (did : String) (serviceIndex : Nat)
    (computePrivacy : Privacy) (account : String) :
    Except JsError (Option DDO × List MCall) :=
  match env.store did with
  | none => Except.error JsError.typeError
  | some oldDdo =>
    match oldDdo.service[serviceIndex]? with
    | none => Except.error JsError.typeError
    | some svc =>
      if svc.type != "compute" then Except.ok (none, [])
      else
        let newSvc :=
          { svc with attributes :=
              { svc.attributes with main :=
                  { svc.attributes.main with privacy :=
                      { allowRawAlgorithm := computePrivacy.allowRawAlgorithm
                        allowNetworkAccess := computePrivacy.allowNetworkAccess
                        trustedAlgorithms := computePrivacy.trustedAlgorithms } } } }
        let newDdo := { oldDdo with service := oldDdo.service.set serviceIndex newSvc }
        match env.updateTx with
        | some _ => Except.ok (some newDdo, [MCall.updateStore newDdo.id newDdo account])
        | none => Except.ok (none, [MCall.updateStore newDdo.id newDdo account])

/-! ## Concrete fixtures for the order / consume / edit / creator claims -/

/-- An access service at index 3 with a 30-unit receipt timeout (C3). -/
def svcC3 : ServiceCommon :=
  { type := "access", index := 3, serviceEndpoint := some "https://provider",
    attributes := { main := { timeout := 30 } } }

/-- A provider quote of 1 token (10^18 wei) for C3. -/
def pdC3 : ProviderData := { dataToken := "0xtok", numTokens := 10 ^ 18 }

/-- Order environment with a resolvable service and a live quote (C3). -/
def envC3full : OrderEnv := { services := [svcC3], providerInit := some pdC3 }

/-- Order environment with a resolvable service but a `null` quote (C3). -/
def envC3noQuote : OrderEnv := { services := [svcC3], providerInit := none }

/-- Order environment whose document has no matching service (C3). -/
def envC3empty : OrderEnv := { services := [], providerInit := none }

/-- Ledger with balance 1 (equal to the 1-token quote) that would accept a
payment (C3). -/
def ledgerC3 : Ledger :=
  { now := 0, orders := [], balances := fun _ _ => 1, nextTxId := 0, startOrderFails := false }

/-- Ledger with ample balance whose `startOrder` throws (C3). -/
def ledgerC3throw : Ledger :=
  { now := 0, orders := [], balances := fun _ _ => 2, nextTxId := 0, startOrderFails := true }

/-- An access service at index 3 with a positive receipt timeout (C4). -/
def svcC4 : ServiceCommon :=
  { type := "access", index := 3, serviceEndpoint := some "https://provider",
    attributes := { main := { timeout := 30 } } }

/-- A provider quote of 1 token for C4. -/
def pdC4 : ProviderData := { dataToken := "0xtok", numTokens := 10 ^ 18 }

/-- Order environment for the C4 idempotency scenario. -/
def envC4 : OrderEnv := { services := [svcC4], providerInit := some pdC4 }

/-- Initial ledger for C4: no prior order, balance 2 > cost 1. -/
def ledgerC4 : Ledger :=
  { now := 0, orders := [], balances := fun _ _ => 2, nextTxId := 0, startOrderFails := false }

/-- An access service at index 3 for the C5 balance boundary. -/
def svcC5 : ServiceCommon :=
  { type := "access", index := 3, serviceEndpoint := some "https://provider",
    attributes := { main := { timeout := 30 } } }

/-- A provider quote of 100 tokens (100 * 10^18 wei) for C5. -/
def pdC5 : ProviderData := { dataToken := "0xtok", numTokens := 100 * 10 ^ 18 }

/-- Order environment for the C5 balance boundary. -/
def envC5 : OrderEnv := { services := [svcC5], providerInit := some pdC5 }

/-- Ledger with consumer balance exactly 100 (equal to the quote cost). -/
def ledgerC5eq : Ledger :=
  { now := 0, orders := [], balances := fun _ _ => 100, nextTxId := 0, startOrderFails := false }

/-- Ledger with consumer balance 101 (strictly above the quote cost). -/
def ledgerC5gt : Ledger :=
  { now := 0, orders := [], balances := fun _ _ => 101, nextTxId := 0, startOrderFails := false }

/-- Metadata service of the C6 documents. -/
def mdSvcC6 : ServiceCommon :=
  { type := "metadata", index := 0,
    attributes := { main := { files := [{ url := none, index := 0 }] } } }

/-- Access service without a `serviceEndpoint` (C6). -/
def accSvcC6none : ServiceCommon :=
  { type := "access", index := 1, serviceEndpoint := none }

/-- Access service with a `serviceEndpoint` (C6). -/
def accSvcC6some : ServiceCommon :=
  { type := "access", index := 1, serviceEndpoint := some "https://provider/consume" }

/-- Document whose access service lacks an endpoint (C6). -/
def ddoC6none : DDO :=
  { id := "did:op:abc", dataToken := "0xtok", service := [mdSvcC6, accSvcC6none] }

/-- Document whose access service has an endpoint (C6). -/
def ddoC6some : DDO :=
  { id := "did:op:abc", dataToken := "0xtok", service := [mdSvcC6, accSvcC6some] }

/-- Document with a proof created by `0xAlice` (C8). -/
def ddoC8 : DDO :=
  { id := "did:op:abc", dataToken := "0xtok",
    proof := some { creator := "0xAlice", signatureValue := "0xsig" } }

/-- Document whose only service is a non-compute (access) service (C10). -/
def ddoC10 : DDO :=
  { id := "did:op:abc", dataToken := "0xtok",
    service := [{ type := "access", index := 0 }] }

/-- Edit environment resolving every DID to `ddoC10`, with a truthy update
transaction available (C10). -/
def envC10 : EditEnv := { store := fun _ => some ddoC10, updateTx := some "0xupdatetx" }

end Ocean

namespace Ocean

/-! ## Builder lemmas -/

/-- If the left part of an append already contains a match, `findIdx` over
the append equals `findIdx` over the left part. -/
theorem findIdx_append_pos {α} (p : α → Bool) (l₁ l₂ : List α) (h : l₁.any p = true) :
    (l₁ ++ l₂).findIdx p = l₁.findIdx p := by
  induction l₁ with
  | nil => simp at h
  | cons a t ih =>
    rw [List.any_cons] at h
    by_cases hpa : p a = true
    · simp [List.findIdx_cons, hpa]
    · simp only [hpa, Bool.false_or] at h
      simp [List.findIdx_cons, hpa, ih h]

/-- If the left part of an append contains no match, `findIdx` over the
append is the left length plus `findIdx` over the right part. -/
theorem findIdx_append_neg {α} (p : α → Bool) (l₁ l₂ : List α) (h : l₁.any p = false) :
    (l₁ ++ l₂).findIdx p = l₁.length + l₂.findIdx p := by
  induction l₁ with
  | nil => simp
  | cons a t ih =>
    rw [List.any_cons] at h
    have hpa : p a = false := by
      cases hq : p a
      · rfl
      · rw [hq] at h; simp at h
    have ht : t.any p = false := by
      rw [hpa] at h; simpa using h
    simp [List.findIdx_cons, hpa, ih ht]
    omega

/-- A match inside a list keeps `findIdx` strictly below the length. -/
theorem findIdx_lt_length_of_any {α} (p : α → Bool) (l : List α) (h : l.any p = true) :
    l.findIdx p < l.length := by
  induction l with
  | nil => simp at h
  | cons a t ih =>
    rw [List.any_cons] at h
    by_cases hpa : p a = true
    · simp [List.findIdx_cons, hpa]
    · have hpa' : p a = false := by
        cases hq : p a
        · rfl
        · exact absurd hq hpa
      simp only [hpa', Bool.false_or] at h
      simp only [List.findIdx_cons, hpa', cond_false, List.length_cons]
      exact Nat.succ_lt_succ (ih h)

/-- Every member of a list makes the `same type` predicate match somewhere. -/
theorem any_type_of_mem (m : List ServiceNoIndex) (x : ServiceNoIndex) (hx : x ∈ m) :
    m.any (fun y => y.type == x.type) = true := by
  rw [List.any_eq_true]
  exact ⟨x, hx, by simp⟩

/-- The index-aware filter splits over an append of the traversed list. -/
theorem firstOccAux_append (L : List ServiceNoIndex) (t₁ t₂ : List ServiceNoIndex) (i : Nat) :
    firstOccAux L (t₁ ++ t₂) i = firstOccAux L t₁ i ++ firstOccAux L t₂ (i + t₁.length) := by
  induction t₁ generalizing i with
  | nil => simp [firstOccAux]
  | cons x rest ih =>
    have harith : i + (rest.length + 1) = (i + 1) + rest.length := by omega
    by_cases h : L.findIdx (fun y => y.type == x.type) == i
    · simp [firstOccAux, h, ih (i + 1), List.length_cons, harith]
    · simp [firstOccAux, h, ih (i + 1), List.length_cons, harith]

/-- The traversal only looks at the reference list through `findIdx`; two
reference lists that agree there give the same result. -/
theorem firstOccAux_congr (L L' : List ServiceNoIndex) (t : List ServiceNoIndex) (i : Nat)
    (h : ∀ x ∈ t, L.findIdx (fun y => y.type == x.type) = L'.findIdx (fun y => y.type == x.type)) :
    firstOccAux L t i = firstOccAux L' t i := by
  induction t generalizing i with
  | nil => rfl
  | cons x rest ih =>
    have hx := h x (List.mem_cons_self x rest)
    have hrest : ∀ y ∈ rest, L.findIdx (fun z => z.type == y.type) =
        L'.findIdx (fun z => z.type == y.type) :=
      fun y hy => h y (List.mem_cons_of_mem x hy)
    simp only [firstOccAux, hx, ih (i + 1) hrest]

/-- Appending one element to the filtered list: the new element survives
exactly when its type is fresh, and earlier survivors are unchanged. -/
theorem firstOccurrenceFilter_append_singleton (m : List ServiceNoIndex) (s : ServiceNoIndex) :
    firstOccurrenceFilter (m ++ [s]) =
      firstOccurrenceFilter m ++
        (if m.any (fun y => y.type == s.type) then [] else [s]) := by
  unfold firstOccurrenceFilter
  rw [firstOccAux_append]
  congr 1
  · apply firstOccAux_congr
    intro x hx
    exact findIdx_append_pos _ _ _ (any_type_of_mem m x hx)
  · by_cases h : m.any (fun y => y.type == s.type) = true
    · have h1 : (m ++ [s]).findIdx (fun y => y.type == s.type) =
          m.findIdx (fun y => y.type == s.type) := findIdx_append_pos _ _ _ h
      have h2 : m.findIdx (fun y => y.type == s.type) < m.length :=
        findIdx_lt_length_of_any _ _ h
      have hcond : ¬ (((m ++ [s]).findIdx (fun y => y.type == s.type) == 0 + m.length) = true) := by
        rw [h1]
        simp only [beq_iff_eq]
        omega
      rw [if_pos h]
      simp only [firstOccAux]
      rw [if_neg hcond]
    · have hb : m.any (fun y => y.type == s.type) = false := by
        cases hq : m.any (fun y => y.type == s.type)
        · rfl
        · exact absurd hq h
      have h1 : (m ++ [s]).findIdx (fun y => y.type == s.type) = m.length := by
        rw [findIdx_append_neg _ _ _ hb]
        simp [List.findIdx_cons]
      have hcond : (((m ++ [s]).findIdx (fun y => y.type == s.type) == 0 + m.length) = true) := by
        rw [h1]
        simp
      rw [if_neg h]
      simp only [firstOccAux]
      rw [if_pos hcond]

/-- `reverse`, first-occurrence filter, `reverse` computes keep-last dedup in
last-occurrence order. -/
theorem firstOcc_reverse_eq_dedupKeepLast (l : List ServiceNoIndex) :
    (firstOccurrenceFilter l.reverse).reverse = dedupKeepLast l := by
  induction l with
  | nil => rfl
  | cons s rest ih =>
    rw [List.reverse_cons, firstOccurrenceFilter_append_singleton, List.reverse_append]
    have hany : rest.reverse.any (fun y => y.type == s.type) =
        rest.any (fun y => y.type == s.type) := by
      simp [List.any_eq_true]
    by_cases h : rest.any (fun t => t.type == s.type) = true
    · simp only [dedupKeepLast, h, if_true, hany, List.reverse_nil, List.nil_append, ih]
    · have hb : rest.any (fun t => t.type == s.type) = false := by
        cases hq : rest.any (fun t => t.type == s.type)
        · rfl
        · exact absurd hq h
      simp only [dedupKeepLast, hb, if_false, hany, ih]
      simp

/-- The Service Document Builder equals keep-last dedup followed by dense
index assignment. -/
theorem buildServiceList_eq (candidates : List ServiceNoIndex) :
    buildServiceList candidates = withDenseIndices (dedupKeepLast candidates) := by
  unfold buildServiceList withDenseIndices
  rw [firstOcc_reverse_eq_dedupKeepLast]

/-! ## C1 -/

/-- C1 counterexample: on candidate types `[metadata, access, metadata]` with
distinct metadata payloads, the builder does NOT return
`[metadata(payload of position 2) at index 0, access at index 1]` as the
claim states: survivors keep the order of the last occurrence of each type,
so `access` comes first. -/
theorem c1_counterexample :
    ¬ (buildServiceList [exMeta0, exAccess1, exMeta2] =
        [{ type := "metadata", index := 0,
           attributes := { main := { name := "payload2" } } },
         { type := "access", index := 1,
           attributes := { main := { name := "payloadA" } } }]) := by
  decide

/-- C1 (amended): for every candidate list the builder retains, for each
service type, the content of the last-occurring entry of that type, places
each survivor at the position of the last occurrence among same-typed
entries (survivor order follows last appearance), and assigns dense indices
`0..n-1`; in particular, input types `[metadata, access, metadata]` with
distinct metadata payloads yields exactly `[access, metadata(payload of
position 2)]` with indices 0 and 1. -/
theorem c1_amended :
    (∀ candidates : List ServiceNoIndex,
        buildServiceList candidates = withDenseIndices (dedupKeepLast candidates)) ∧
    buildServiceList [exMeta0, exAccess1, exMeta2] =
      [{ type := "access", index := 0,
         attributes := { main := { name := "payloadA" } } },
       { type := "metadata", index := 1,
         attributes := { main := { name := "payload2" },
                         curation := none, additionalInformation := none,
                         encryptedFiles := none } }] :=
  ⟨buildServiceList_eq, by decide⟩

/-! ## C2 -/

/-- C2: the claim is right about the intended workflow but the code aborts.
First conjunct (the bug, evaluated at the failing input): for every
environment, calling `create` with no pre-existing token address returns the
synchronous `null` of the line-70 guard — no progress step is emitted and no
token is created, because `isAddress(undefined)` is `false` and the guard
runs before the `dtAddress ? ... : mint` branch.  Second conjunct (the
documented intent, which the workflow body lines 78-192 implements): run
directly, the body of a fresh publish emits exactly the 8 named steps once
each in the fixed order and terminates with the published document when all
collaborator calls succeed. -/
theorem c2_create_guard_kills_fresh_publish :
    (∀ (env : PublishEnv) (metadata : Metadata) (publisher : String)
        (services : List ServiceCommon),
        create env metadata publisher services none = none) ∧
    ((createBody goodPublishEnv {} "0xpub" [] none).1 = allCreateSteps ∧
      (createBody goodPublishEnv {} "0xpub" [] none).2.2.isSome = true) :=
  ⟨fun _ _ _ _ => rfl, by decide⟩

/-! ## C7 -/

/-- C7: when the final index publish reports failure (falsy `storeTx`) after
token creation succeeded, the workflow body's terminal value is the failure
sentinel `null`, and the collaborator-call trace is exactly
`[createToken, encrypt, addProof, publishStore]`: the one and only ledger
write is the token creation, so no compensating call (such as a token
revocation) is made and the created token contract remains.  (The fresh
path is exercised through the workflow body; reaching it through `create`
itself is blocked by the line-70 guard bug recorded under C2.) -/
theorem c7_store_failure_no_compensation (env : PublishEnv) (metadata : Metadata)
    (publisher : String) (services : List ServiceCommon)
    (haddr : isAddress env.createTokenAddr = true)
    (hstore : env.publishTx = none) :
    createBody env metadata publisher services none =
      (allCreateSteps, [PCall.createToken, PCall.encrypt, PCall.addProof, PCall.publishStore],
        none) := by
  simp [createBody, createRest, haddr, hstore, allCreateSteps]

/-- C7 witness: the theorem applied at a concrete environment whose minted
address is valid and whose index publish fails. -/
theorem c7_witness :
    createBody failingStorePublishEnv {} "0xpub" [] none =
      (allCreateSteps, [PCall.createToken, PCall.encrypt, PCall.addProof, PCall.publishStore],
        none) :=
  c7_store_failure_no_compensation failingStorePublishEnv {} "0xpub" [] (by decide) rfl

/-! ## Order Workflow lemmas -/

/-- Converting a wei amount to token units and back is the identity (exact
`Rat` arithmetic). -/
theorem toWei_fromWei (n : Nat) : toWei (fromWei n) = (n : Rat) := by
  simp [toWei, fromWei]

/-- Service resolution by type happens before the `try`: a missing service
raises a `TypeError` that propagates to the caller. -/
theorem order_resolve_miss (env : OrderEnv) (L : Ledger) (did st ca : String)
    (mp : Option String)
    (hmiss : getServiceByType env.services st = none) :
    order env L did st ca (-1) mp = (Except.error JsError.typeError, L, []) := by
  simp [order, hmiss]

/-- Inside the `try`: a `null` quote ends the workflow with the `null`
result after only the initialize call. -/
theorem order_quote_null (env : OrderEnv) (L : Ledger) (did st ca : String) (si : Int)
    (mp : Option String) (svc : ServiceCommon)
    (hne : si ≠ -1)
    (hsvc : getServiceByIndex env.services si = some svc)
    (hq : env.providerInit = none) :
    order env L did st ca si mp = (Except.ok none, L, [OCall.initProvider]) := by
  have hbe : (si == -1) = false := beq_eq_false_iff_ne.mpr hne
  simp [order, hbe, hsvc, orderTry, hq]

/-- Inside the `try`: with a live quote, no reusable prior order and a
balance at most the cost, the workflow returns `null` without reaching
`startOrder`. -/
theorem order_balance_low (env : OrderEnv) (L : Ledger) (did st ca : String) (si : Int)
    (mp : Option String) (svc : ServiceCommon) (pd : ProviderData)
    (hne : si ≠ -1)
    (hsvc : getServiceByIndex env.services si = some svc)
    (hpd : env.providerInit = some pd)
    (hprev : L.getPreviousValidOrders pd.dataToken pd.numTokens (didZeroX did) si
        svc.attributes.main.timeout ca = none)
    (hbal : L.balances pd.dataToken ca ≤ fromWei pd.numTokens) :
    order env L did st ca si mp =
      (Except.ok none, L,
        [OCall.initProvider, OCall.getPreviousValidOrders, OCall.balanceOf]) := by
  have hbe : (si == -1) = false := beq_eq_false_iff_ne.mpr hne
  simp [order, hbe, hsvc, orderTry, hpd, hprev, hbal]

/-- Inside the `try`: a throwing `startOrder` is caught by the `catch` and
surfaces as the `null` result, with the ledger unchanged. -/
theorem order_ledger_throw (env : OrderEnv) (L : Ledger) (did st ca : String) (si : Int)
    (mp : Option String) (svc : ServiceCommon) (pd : ProviderData)
    (hne : si ≠ -1)
    (hsvc : getServiceByIndex env.services si = some svc)
    (hpd : env.providerInit = some pd)
    (hprev : L.getPreviousValidOrders pd.dataToken pd.numTokens (didZeroX did) si
        svc.attributes.main.timeout ca = none)
    (hbal : fromWei pd.numTokens < L.balances pd.dataToken ca)
    (hfail : L.startOrderFails = true) :
    order env L did st ca si mp =
      (Except.ok none, L,
        [OCall.initProvider, OCall.getPreviousValidOrders, OCall.balanceOf,
         OCall.startOrder]) := by
  have hbe : (si == -1) = false := beq_eq_false_iff_ne.mpr hne
  have hnot : ¬ (L.balances pd.dataToken ca ≤ fromWei pd.numTokens) := not_le.mpr hbal
  simp [order, hbe, hsvc, orderTry, hpd, hprev, hnot, Ledger.startOrder, hfail]

/-- Inside the `try`: a fresh successful payment returns the new transaction
hash and records the order on the ledger. -/
theorem order_fresh_payment (env : OrderEnv) (L : Ledger) (did st ca : String) (si : Int)
    (mp : Option String) (svc : ServiceCommon) (pd : ProviderData)
    (hne : si ≠ -1)
    (hsvc : getServiceByIndex env.services si = some svc)
    (hpd : env.providerInit = some pd)
    (hprev : L.getPreviousValidOrders pd.dataToken pd.numTokens (didZeroX did) si
        svc.attributes.main.timeout ca = none)
    (hbal : fromWei pd.numTokens < L.balances pd.dataToken ca)
    (hok : L.startOrderFails = false) :
    order env L did st ca si mp =
      (Except.ok (some ("0xorder" ++ toString L.nextTxId)),
       { L with
         orders := { txHash := "0xorder" ++ toString L.nextTxId
                     dataToken := pd.dataToken
                     amount := toWei (fromWei pd.numTokens)
                     did := didZeroX did
                     serviceIndex := si
                     consumer := ca
                     timestamp := L.now } :: L.orders
         nextTxId := L.nextTxId + 1 },
       [OCall.initProvider, OCall.getPreviousValidOrders, OCall.balanceOf,
        OCall.startOrder]) := by
  have hbe : (si == -1) = false := beq_eq_false_iff_ne.mpr hne
  have hnot : ¬ (L.balances pd.dataToken ca ≤ fromWei pd.numTokens) := not_le.mpr hbal
  simp [order, hbe, hsvc, orderTry, hpd, hprev, hnot, Ledger.startOrder, hok]

/-- Inside the `try`: a reusable previous order short-circuits — its
identifier is returned, the ledger is untouched, and neither the balance
check nor `startOrder` happens. -/
theorem order_prev_hit (env : OrderEnv) (L : Ledger) (did st ca : String) (si : Int)
    (mp : Option String) (svc : ServiceCommon) (pd : ProviderData) (prevTx : String)
    (hne : si ≠ -1)
    (hsvc : getServiceByIndex env.services si = some svc)
    (hpd : env.providerInit = some pd)
    (hprev : L.getPreviousValidOrders pd.dataToken pd.numTokens (didZeroX did) si
        svc.attributes.main.timeout ca = some prevTx) :
    order env L did st ca si mp =
      (Except.ok (some prevTx), L,
        [OCall.initProvider, OCall.getPreviousValidOrders]) := by
  have hbe : (si == -1) = false := beq_eq_false_iff_ne.mpr hne
  simp [order, hbe, hsvc, orderTry, hpd, hprev]

/-! ## C3 -/

/-- C3 counterexample: the claim's propagation policy is inverted by the
code.  First conjunct: with a live quote, sufficient balance and a ledger
whose `startOrder` throws, `Assets.order` returns the `null` result (the
`catch` at line 510 swallows the ledger failure) instead of raising.
Second conjunct: when the requested service type does not exist,
`service.index` is read off `undefined` at line 462, OUTSIDE the `try`, and
the `TypeError` propagates instead of an absent result. -/
theorem c3_counterexample :
    order envC3full ledgerC3throw "did:op:x" "access" "0xconsumer" 3 none =
      (Except.ok none, ledgerC3throw,
        [OCall.initProvider, OCall.getPreviousValidOrders, OCall.balanceOf,
         OCall.startOrder]) ∧
    order envC3empty ledgerC3 "did:op:x" "access" "0xconsumer" (-1) none =
      (Except.error JsError.typeError, ledgerC3, []) := by
  constructor
  · exact order_ledger_throw envC3full ledgerC3throw "did:op:x" "access" "0xconsumer" 3 none
      svcC3 pdC3 (by decide) rfl rfl rfl (by norm_num [fromWei, pdC3, ledgerC3throw]) rfl
  · exact order_resolve_miss envC3empty ledgerC3 "did:op:x" "access" "0xconsumer" none rfl

/-- C3 (amended): for every Order Workflow invocation, the business-rule
failures QuoteUnavailable and InsufficientBalance are reported by returning
an absent (null) result without any payment call, and a ledger transaction
failure (the ledger collaborator throws in `startOrder`) is caught and also
reported as the absent result; ServiceNotFound, by contrast, occurs during
the service resolution that runs before the `try` block and propagates to
the caller as a raised error. -/
theorem c3_amended (env : OrderEnv) (L : Ledger) (did serviceType consumerAddress : String)
    (serviceIndex : Int) (mpAddress : Option String) :
    (serviceIndex = -1 → getServiceByType env.services serviceType = none →
      order env L did serviceType consumerAddress serviceIndex mpAddress =
        (Except.error JsError.typeError, L, [])) ∧
    (∀ svc : ServiceCommon, serviceIndex ≠ -1 →
      getServiceByIndex env.services serviceIndex = some svc →
      env.providerInit = none →
      order env L did serviceType consumerAddress serviceIndex mpAddress =
        (Except.ok none, L, [OCall.initProvider])) ∧
    (∀ (svc : ServiceCommon) (pd : ProviderData), serviceIndex ≠ -1 →
      getServiceByIndex env.services serviceIndex = some svc →
      env.providerInit = some pd →
      L.getPreviousValidOrders pd.dataToken pd.numTokens (didZeroX did) serviceIndex
        svc.attributes.main.timeout consumerAddress = none →
      L.balances pd.dataToken consumerAddress ≤ fromWei pd.numTokens →
      order env L did serviceType consumerAddress serviceIndex mpAddress =
        (Except.ok none, L,
          [OCall.initProvider, OCall.getPreviousValidOrders, OCall.balanceOf])) ∧
    (∀ (svc : ServiceCommon) (pd : ProviderData), serviceIndex ≠ -1 →
      getServiceByIndex env.services serviceIndex = some svc →
      env.providerInit = some pd →
      L.getPreviousValidOrders pd.dataToken pd.numTokens (didZeroX did) serviceIndex
        svc.attributes.main.timeout consumerAddress = none →
      fromWei pd.numTokens < L.balances pd.dataToken consumerAddress →
      L.startOrderFails = true →
      order env L did serviceType consumerAddress serviceIndex mpAddress =
        (Except.ok none, L,
          [OCall.initProvider, OCall.getPreviousValidOrders, OCall.balanceOf,
           OCall.startOrder])) := by
  refine ⟨?_, ?_, ?_, ?_⟩
  · intro h1 h2
    subst h1
    exact order_resolve_miss env L did serviceType consumerAddress mpAddress h2
  · intro svc h1 h2 h3
    exact order_quote_null env L did serviceType consumerAddress serviceIndex mpAddress svc
      h1 h2 h3
  · intro svc pd h1 h2 h3 h4 h5
    exact order_balance_low env L did serviceType consumerAddress serviceIndex mpAddress svc pd
      h1 h2 h3 h4 h5
  · intro svc pd h1 h2 h3 h4 h5 h6
    exact order_ledger_throw env L did serviceType consumerAddress serviceIndex mpAddress svc pd
      h1 h2 h3 h4 h5 h6

/-- C3 witness: the four amended branches at concrete inputs — service-miss
raises, null quote returns null, balance equal to cost returns null without
payment, and a throwing ledger is swallowed into null. -/
theorem c3_amended_witness :
    order envC3empty ledgerC3 "did:op:x" "access" "0xconsumer" (-1) none =
      (Except.error JsError.typeError, ledgerC3, []) ∧
    order envC3noQuote ledgerC3 "did:op:x" "access" "0xconsumer" 3 none =
      (Except.ok none, ledgerC3, [OCall.initProvider]) ∧
    order envC3full ledgerC3 "did:op:x" "access" "0xconsumer" 3 none =
      (Except.ok none, ledgerC3,
        [OCall.initProvider, OCall.getPreviousValidOrders, OCall.balanceOf]) ∧
    order envC3full ledgerC3throw "did:op:x" "access" "0xconsumer" 3 none =
      (Except.ok none, ledgerC3throw,
        [OCall.initProvider, OCall.getPreviousValidOrders, OCall.balanceOf,
         OCall.startOrder]) := by
  refine ⟨?_, ?_, ?_, ?_⟩
  · exact (c3_amended envC3empty ledgerC3 "did:op:x" "access" "0xconsumer" (-1) none).1 rfl rfl
  · exact (c3_amended envC3noQuote ledgerC3 "did:op:x" "access" "0xconsumer" 3 none).2.1
      svcC3 (by decide) rfl rfl
  · exact (c3_amended envC3full ledgerC3 "did:op:x" "access" "0xconsumer" 3 none).2.2.1
      svcC3 pdC3 (by decide) rfl rfl rfl (by norm_num [fromWei, pdC3, ledgerC3])
  · exact (c3_amended envC3full ledgerC3throw "did:op:x" "access" "0xconsumer" 3 none).2.2.2
      svcC3 pdC3 (by decide) rfl rfl rfl (by norm_num [fromWei, pdC3, ledgerC3throw]) rfl

/-! ## C4 -/

/-- C4: order idempotency.  With no reusable prior order, sufficient
balance and a working ledger, a first invocation pays and returns a fresh
transaction identifier; a second invocation in immediate succession (the
ledger time has not advanced and the receipt timeout is positive, so the
receipt is still within its validity window) returns the same identifier
with the trace `[initProvider, getPreviousValidOrders]` — the ledger's
order-start operation is not invoked again and the ledger is unchanged. -/
theorem c4_order_idempotent (env : OrderEnv) (L : Ledger)
    (did serviceType consumerAddress : String) (serviceIndex : Int)
    (mpAddress : Option String) (svc : ServiceCommon) (pd : ProviderData)
    (hne : serviceIndex ≠ -1)
    (hsvc : getServiceByIndex env.services serviceIndex = some svc)
    (hpd : env.providerInit = some pd)
    (hprev : L.getPreviousValidOrders pd.dataToken pd.numTokens (didZeroX did) serviceIndex
        svc.attributes.main.timeout consumerAddress = none)
    (hbal : fromWei pd.numTokens < L.balances pd.dataToken consumerAddress)
    (hok : L.startOrderFails = false)
    (htimeout : 0 < svc.attributes.main.timeout) :
    ∃ (tx : String) (L₁ : Ledger),
      order env L did serviceType consumerAddress serviceIndex mpAddress =
        (Except.ok (some tx), L₁,
          [OCall.initProvider, OCall.getPreviousValidOrders, OCall.balanceOf,
           OCall.startOrder]) ∧
      order env L₁ did serviceType consumerAddress serviceIndex mpAddress =
        (Except.ok (some tx), L₁, [OCall.initProvider, OCall.getPreviousValidOrders]) := by
  have hfirst := order_fresh_payment env L did serviceType consumerAddress serviceIndex
    mpAddress svc pd hne hsvc hpd hprev hbal hok
  have hprev₁ :
      ({ L with
         orders := { txHash := "0xorder" ++ toString L.nextTxId
                     dataToken := pd.dataToken
                     amount := toWei (fromWei pd.numTokens)
                     did := didZeroX did
                     serviceIndex := serviceIndex
                     consumer := consumerAddress
                     timestamp := L.now } :: L.orders
         nextTxId := L.nextTxId + 1 } : Ledger).getPreviousValidOrders
        pd.dataToken pd.numTokens (didZeroX did) serviceIndex
        svc.attributes.main.timeout consumerAddress =
      some ("0xorder" ++ toString L.nextTxId) := by
    simp only [Ledger.getPreviousValidOrders]
    rw [List.find?_cons_of_pos]
    · rfl
    · simp [toWei_fromWei]
      exact htimeout
  exact ⟨"0xorder" ++ toString L.nextTxId, _, hfirst,
    order_prev_hit env _ did serviceType consumerAddress serviceIndex mpAddress svc pd _
      hne hsvc hpd hprev₁⟩

/-- C4 witness: the theorem at a concrete environment (service index 3,
quote of one token, balance 2, timeout 30, fresh ledger). -/
theorem c4_witness :
    ∃ (tx : String) (L₁ : Ledger),
      order envC4 ledgerC4 "did:op:x" "access" "0xconsumer" 3 none =
        (Except.ok (some tx), L₁,
          [OCall.initProvider, OCall.getPreviousValidOrders, OCall.balanceOf,
           OCall.startOrder]) ∧
      order envC4 L₁ "did:op:x" "access" "0xconsumer" 3 none =
        (Except.ok (some tx), L₁, [OCall.initProvider, OCall.getPreviousValidOrders]) :=
  c4_order_idempotent envC4 ledgerC4 "did:op:x" "access" "0xconsumer" 3 none svcC4 pdC4
    (by decide) rfl rfl rfl (by norm_num [fromWei, pdC4, ledgerC4]) rfl (by decide)

/-! ## C5 -/

/-- C5: balance boundary.  With no reusable prior order: when the consumer's
balance is less than or equal to the quote cost (`fromWei numTokens`) — in
particular when it is exactly equal — the workflow aborts with the `null`
result and never calls `startOrder`; when the balance is strictly greater,
the workflow proceeds to the ledger payment (`startOrder` appears in the
trace and a transaction hash is returned). -/
theorem c5_balance_boundary (env : OrderEnv) (L : Ledger)
    (did serviceType consumerAddress : String) (serviceIndex : Int)
    (mpAddress : Option String) (svc : ServiceCommon) (pd : ProviderData)
    (hne : serviceIndex ≠ -1)
    (hsvc : getServiceByIndex env.services serviceIndex = some svc)
    (hpd : env.providerInit = some pd)
    (hprev : L.getPreviousValidOrders pd.dataToken pd.numTokens (didZeroX did) serviceIndex
        svc.attributes.main.timeout consumerAddress = none) :
    (L.balances pd.dataToken consumerAddress ≤ fromWei pd.numTokens →
      order env L did serviceType consumerAddress serviceIndex mpAddress =
        (Except.ok none, L,
          [OCall.initProvider, OCall.getPreviousValidOrders, OCall.balanceOf])) ∧
    (fromWei pd.numTokens < L.balances pd.dataToken consumerAddress →
      L.startOrderFails = false →
      ∃ (tx : String) (L' : Ledger),
        order env L did serviceType consumerAddress serviceIndex mpAddress =
          (Except.ok (some tx), L',
            [OCall.initProvider, OCall.getPreviousValidOrders, OCall.balanceOf,
             OCall.startOrder])) := by
  constructor
  · intro hbal
    exact order_balance_low env L did serviceType consumerAddress serviceIndex mpAddress svc pd
      hne hsvc hpd hprev hbal
  · intro hbal hok
    exact ⟨"0xorder" ++ toString L.nextTxId, _,
      order_fresh_payment env L did serviceType consumerAddress serviceIndex mpAddress svc pd
        hne hsvc hpd hprev hbal hok⟩

/-- C5 witness: quote cost 100 tokens (100 * 10^18 wei); balance 100 aborts
without payment, balance 101 proceeds to `startOrder`. -/
theorem c5_witness :
    order envC5 ledgerC5eq "did:op:x" "access" "0xconsumer" 3 none =
      (Except.ok none, ledgerC5eq,
        [OCall.initProvider, OCall.getPreviousValidOrders, OCall.balanceOf]) ∧
    (∃ (tx : String) (L' : Ledger),
      order envC5 ledgerC5gt "did:op:x" "access" "0xconsumer" 3 none =
        (Except.ok (some tx), L',
          [OCall.initProvider, OCall.getPreviousValidOrders, OCall.balanceOf,
           OCall.startOrder])) :=
  ⟨(c5_balance_boundary envC5 ledgerC5eq "did:op:x" "access" "0xconsumer" 3 none svcC5 pdC5
      (by decide) rfl rfl rfl).1 (by norm_num [fromWei, pdC5, ledgerC5eq]),
   (c5_balance_boundary envC5 ledgerC5gt "did:op:x" "access" "0xconsumer" 3 none svcC5 pdC5
      (by decide) rfl rfl rfl).2 (by norm_num [fromWei, pdC5, ledgerC5gt]) rfl⟩

/-! ## C9 -/

/-- The overwrite-fold of the lookup loops keeps the last match: it equals
the first match of the reversed list, with the initial accumulator as
fallback. -/
theorem foldl_keepLast_eq {α} (p : α → Bool) (l : List α) (init : Option α) :
    l.foldl (fun acc x => if p x then some x else acc) init =
      (l.reverse.find? p).or init := by
  induction l generalizing init with
  | nil => rfl
  | cons a t ih =>
    rw [List.foldl_cons, ih, List.reverse_cons, List.find?_append]
    by_cases hpa : p a = true
    · simp only [List.find?_cons_of_pos _ hpa, if_pos hpa]
      cases t.reverse.find? p <;> rfl
    · simp only [List.find?_cons_of_neg _ hpa, List.find?_nil, if_neg hpa]
      cases t.reverse.find? p <;> rfl

/-- C9: for every resolved document, `getServiceByType` and
`getServiceByIndex` return the last descriptor in document order matching
the requested type (resp. index) — the first match of the reversed list —
and return the absent value `undefined` (`none`) when no descriptor
matches; both lookups are total, so no error is ever raised. -/
theorem c9_service_lookup_last_match (services : List ServiceCommon)
    (serviceType : String) (serviceIndex : Int) :
    getServiceByType services serviceType =
      services.reverse.find? (fun s => s.type == serviceType) ∧
    getServiceByIndex services serviceIndex =
      services.reverse.find? (fun s => s.index == serviceIndex) := by
  constructor
  · rw [getServiceByType, foldl_keepLast_eq]
    cases services.reverse.find? (fun s => s.type == serviceType) <;> rfl
  · rw [getServiceByIndex, foldl_keepLast_eq]
    cases services.reverse.find? (fun s => s.index == serviceIndex) <;> rfl

/-! ## C6 -/

/-- C6: in the full-resolution Consume Workflow, when the document's access
service has no `serviceEndpoint` the workflow raises the missing-endpoint
error as a hard failure and the result carries no provider call; when the
endpoint is present, the provider's download operation is invoked with the
source's exact arguments and the workflow returns `true`. -/
theorem c6_endpoint_precondition (ddo : DDO)
    (did txId tokenAddress consumerAccount : String) (destination : Option String)
    (mdSvc accessSvc : ServiceCommon)
    (hmd : findServiceByType ddo "metadata" = some mdSvc)
    (hacc : findServiceByType ddo "access" = some accessSvc) :
    (accessSvc.serviceEndpoint = none →
      download ddo did txId tokenAddress consumerAccount destination =
        Except.error JsError.missingEndpoint) ∧
    (∀ ep, accessSvc.serviceEndpoint = some ep →
      download ddo did txId tokenAddress consumerAccount destination =
        Except.ok (true,
          [DCall.providerDownload did txId tokenAddress accessSvc.type
            (toString accessSvc.index)
            (destination.map fun d =>
              d ++ "/datafile." ++ shortId ddo ++ "." ++ toString accessSvc.index ++ "/")
            consumerAccount mdSvc.attributes.main.files])) := by
  constructor
  · intro hend
    simp [download, hmd, hacc, hend]
  · intro ep hend
    simp [download, hmd, hacc, hend]

/-- C6 witness: a document lacking the endpoint fails hard with no provider
call; the same document with the endpoint present reaches
`provider.download`. -/
theorem c6_witness :
    download ddoC6none "did:op:abc" "0xtx" "0xtok" "0xconsumer" (some "/tmp/data") =
      Except.error JsError.missingEndpoint ∧
    download ddoC6some "did:op:abc" "0xtx" "0xtok" "0xconsumer" (some "/tmp/data") =
      Except.ok (true,
        [DCall.providerDownload "did:op:abc" "0xtx" "0xtok" accSvcC6some.type
          (toString accSvcC6some.index)
          ((some "/tmp/data").map fun d =>
            d ++ "/datafile." ++ shortId ddoC6some ++ "." ++ toString accSvcC6some.index ++ "/")
          "0xconsumer" mdSvcC6.attributes.main.files]) :=
  ⟨(c6_endpoint_precondition ddoC6none "did:op:abc" "0xtx" "0xtok" "0xconsumer"
      (some "/tmp/data") mdSvcC6 accSvcC6none rfl rfl).1 rfl,
   (c6_endpoint_precondition ddoC6some "did:op:abc" "0xtx" "0xtok" "0xconsumer"
      (some "/tmp/data") mdSvcC6 accSvcC6some rfl rfl).2 "https://provider/consume" rfl⟩

/-! ## C8 -/

/-- C8: `Assets.creator` returns the proof's `creator` field whether or not
the signer recovered by signature verification matches it; the result is
always the successful one, paired with the warning flag that is `true`
exactly when the lowercased recovered signer differs from the lowercased
creator (the mismatch is logged, never raised). -/
theorem c8_creator_mismatch_is_warning (verifyText : String → String → String)
    (getChecksum : DDO → String) (ddo : DDO) (pf : ProofRecord)
    (hpf : ddo.proof = some pf) :
    creatorOp verifyText getChecksum ddo =
      Except.ok (pf.creator,
        toLowerStr (verifyText (getChecksum ddo) pf.signatureValue) !=
          toLowerStr pf.creator) := by
  simp [creatorOp, hpf]

/-- C8 witness: a verifier recovering `0xBob` against creator `0xAlice`
still yields `0xAlice` (with the warning flag set); a verifier recovering
`0xAlice` yields `0xAlice` with no warning. -/
theorem c8_witness :
    creatorOp (fun _ _ => "0xBob") (fun _ => "checksum") ddoC8 =
      Except.ok ("0xAlice", true) ∧
    creatorOp (fun _ _ => "0xAlice") (fun _ => "checksum") ddoC8 =
      Except.ok ("0xAlice", false) :=
  ⟨(c8_creator_mismatch_is_warning (fun _ _ => "0xBob") (fun _ => "checksum") ddoC8
      { creator := "0xAlice", signatureValue := "0xsig" } rfl).trans (by rfl),
   (c8_creator_mismatch_is_warning (fun _ _ => "0xAlice") (fun _ => "checksum") ddoC8
      { creator := "0xAlice", signatureValue := "0xsig" } rfl).trans (by rfl)⟩

/-! ## C10 -/

/-- C10: when the service at the supplied positional index is not of type
`compute`, `Assets.updateComputePrivacy` returns `null` with an empty
metadata-index call trace — the index's update operation is never invoked,
so the stored AssetRecord is unchanged on this error path. -/
theorem c10_non_compute_no_update (env : EditEnv) (did : String) (serviceIndex : Nat)
    (computePrivacy : Privacy) (account : String) (oldDdo : DDO) (svc : ServiceCommon)
    (hstore : env.store did = some oldDdo)
    (hsvc : oldDdo.service[serviceIndex]? = some svc)
    (htype : svc.type ≠ "compute") :
    updateComputePrivacy env did serviceIndex computePrivacy account =
      Except.ok (none, []) := by
  simp [updateComputePrivacy, hstore, hsvc, htype]

/-- C10 witness: editing the compute privacy of a document whose service at
index 0 has type `access` returns `null` and issues no update call. -/
theorem c10_witness :
    updateComputePrivacy envC10 "did:op:abc" 0 {} "0xaccount" = Except.ok (none, []) :=
  c10_non_compute_no_update envC10 "did:op:abc" 0 {} "0xaccount" ddoC10
    { type := "access", index := 0 } rfl rfl (by decide)

end Ocean
